import Mathlib

/-!
Shallow embedding of `src/backend/main.py` (the sandboxed code-execution
backend).  Pure data and control flow of the Python source are translated
into Lean definitions; the effects of `subprocess.run`, `tracemalloc`,
`timeit` and the filesystem are made explicit as environment inputs and
returned state.
-/

namespace CodeReview

/-- Result of `platform.system()`: the code branches on the strings
`"Darwin"` and `"Windows"`; every other value behaves like Linux. -/
inductive Platform
| linux
| darwin
| windows
deriving DecidableEq

/-- Modelled from the spec: platform support for POSIX resource limits
(`resource.setrlimit`).  The repository itself contains no capability
probe beyond `platform.system()` checks; POSIX `setrlimit` is available
on Linux and macOS (Darwin) and absent on Windows. -/
def supportsPosixRlimits : Platform → Bool
| Platform.windows => false
| _ => true

/-- The two `resource` constants used by `limit_resources`
(`main.py` lines 66-68): `RLIMIT_CPU` and `RLIMIT_AS`. -/
inductive RLimit
| cpu
| addressSpace
deriving DecidableEq

/-- `limit_resources` (`main.py` lines 66-68), embedded as the list of
`setrlimit` calls it performs: each item is a resource together with its
`(soft, hard)` pair.
`resource.setrlimit(resource.RLIMIT_CPU, (2, 2))`;
`resource.setrlimit(resource.RLIMIT_AS, (512 * 1024 * 1024, 512 * 1024 * 1024))`. -/
def limit_resources : List (RLimit × ℕ × ℕ) :=
  [(RLimit.cpu, 2, 2), (RLimit.addressSpace, 512 * 1024 * 1024, 512 * 1024 * 1024)]

/-- `LANGUAGE_COMMANDS` (`main.py` lines 47-52).  The python entry uses
`sys.executable`, a process-wide value supplied here as a parameter. -/
def LANGUAGE_COMMANDS (sysExecutable : String) : List (String × List String) :=
  [("python", [sysExecutable, "-c"]),
   ("javascript", ["node", "-e"]),
   ("java", ["java", "Main"]),
   ("cpp", ["./a.out"])]

/-- One `subprocess.run` invocation as issued by `execute_code_safely`:
its argv, its `timeout=` keyword (seconds), and its `preexec_fn`
(`none` models `preexec_fn=None` or the keyword being absent; `some
limit_resources` models `preexec_fn=limit_resources`). -/
structure SpawnSpec where
  argv : List String
  timeoutSeconds : ℕ
  preexec : Option (List (RLimit × ℕ × ℕ))
deriving DecidableEq

/-- The `if language == ... / elif ...` chain of `execute_code_safely`
(`main.py` lines 135-158): which `subprocess.run` call is issued for a
given language on a given platform.  `none` corresponds to the trailing
`else: return {"error": "Unsupported language"}` branch (line 157-158),
unreachable once the registry guard has passed. -/
def spawnSpecFor (p : Platform) (language code : String) : Option SpawnSpec :=
  if language = "python" then
    some { argv := ["python3", "-c", code], timeoutSeconds := 2,
           preexec := if p = Platform.darwin ∨ p = Platform.windows then none
                      else some limit_resources }
  else if language = "javascript" then
    some { argv := ["node", "-e", code], timeoutSeconds := 2,
           preexec := if p = Platform.darwin ∨ p = Platform.windows then none
                      else some limit_resources }
  else if language = "java" then
    some { argv := ["java", "Main"], timeoutSeconds := 2, preexec := none }
  else if language = "cpp" then
    some { argv := ["./a.out"], timeoutSeconds := 2, preexec := none }
  else none

/-- Behaviour of the one `subprocess.run` call inside
`execute_code_safely`, as seen by the caller: either it returns a
completed process (return code, stdout, stderr), or it raises
`subprocess.TimeoutExpired`, `FileNotFoundError`, or some other
`Exception` carrying the text `str(e)`. -/
inductive RunResult
| completed (returncode : Int) (stdout : String) (stderr : String)
| timeoutExpired
| fileNotFound
| otherExc (emsg : String)
deriving DecidableEq

/-- Host environment of one `execute_code_safely` call: the platform,
the interpreter path `sys.executable` baked into `LANGUAGE_COMMANDS`,
what the spawned child does, the elapsed time measured by
`timeit.default_timer`, and the peak traced allocation in bytes reported
by `tracemalloc.get_traced_memory()[1]`. -/
structure ExecEnv where
  platform : Platform
  sysExecutable : String
  run : RunResult
  elapsed : ℚ
  peakBytes : ℕ

/-- Python's `str.strip()` with no argument, for ASCII text: drop
whitespace from both ends.  (Defined by structural recursion on the
character list so that concrete instances evaluate; Python also strips
the rarer vertical-tab and form-feed characters, which do not occur in
the strings considered.) -/
def pyStrip (s : String) : String :=
  String.mk (((s.toList.dropWhile Char.isWhitespace).reverse.dropWhile
    Char.isWhitespace).reverse)

/-- The dictionary returned by `execute_code_safely`: either
`{"error": message}` or
`{"runtime": ..., "memory": ..., "output": ...}`. -/
inductive Outcome
| error (message : String)
| success (runtime : ℚ) (memory : ℕ) (output : String)
deriving DecidableEq

/-- `round(x, 4)` (`main.py` line 168): rounding to four decimal places,
modelled over ℚ.  (Python rounds the underlying binary float half to
even; at four decimal places this differs only on exact ties, immaterial
for the measured durations considered here.) -/
def round4 (q : ℚ) : ℚ := (round (q * 10000) : ℤ) / 10000

/-- Observable result of one `execute_code_safely` call: the returned
dictionary, the list of `subprocess.run` invocations issued, and whether
the `tracemalloc` tracer (not running at entry) is still running when
the call returns. -/
structure ExecTrace where
  outcome : Outcome
  spawns : List SpawnSpec
  tracingAfter : Bool
deriving DecidableEq

/-- Body of the `try:` block of `execute_code_safely` together with its
`except` clauses (`main.py` lines 127-178), after `tracemalloc.start()`
(line 128).  `tracemalloc.stop()` (line 162) runs only when
`subprocess.run` returns normally; the three `except` paths return with
the tracer still running. -/
def spawnAndClassify (env : ExecEnv) (code language : String) : ExecTrace :=
  match spawnSpecFor env.platform language code with
  | none =>
      { outcome := Outcome.error "Unsupported language", spawns := [],
        tracingAfter := true }
  | some sp =>
      match env.run with
      | RunResult.completed rc out err =>
          if rc ≠ 0 then
            { outcome := Outcome.error ("Runtime Error:\n" ++ pyStrip err),
              spawns := [sp], tracingAfter := false }
          else
            { outcome := Outcome.success (round4 env.elapsed) (env.peakBytes / 1024)
                (pyStrip out),
              spawns := [sp], tracingAfter := false }
      | RunResult.timeoutExpired =>
          { outcome := Outcome.error "Code execution timed out (infinite loop or too slow).",
            spawns := [sp], tracingAfter := true }
      | RunResult.fileNotFound =>
          { outcome := Outcome.error "Execution file not found. Ensure compilation was successful.",
            spawns := [sp], tracingAfter := true }
      | RunResult.otherExc emsg =>
          { outcome := Outcome.error ("Unexpected error: " ++ emsg),
            spawns := [sp], tracingAfter := true }

/-- `execute_code_safely(code, language)` (`main.py` lines 123-178).
The initial guard `if language not in LANGUAGE_COMMANDS` (line 124)
returns before the `try:` block, so no subprocess is spawned and the
tracer is never started on that path. -/
def execute_code_safely (env : ExecEnv) (code language : String) : ExecTrace :=
  if (LANGUAGE_COMMANDS env.sysExecutable).lookup language = none then
    { outcome := Outcome.error "Unsupported language", spawns := [],
      tracingAfter := false }
  else
    spawnAndClassify env code language

/-! ### Leaderboard (`main.py` lines 238-264) -/

/-- One leaderboard entry as built by `update_leaderboard`
(`main.py` lines 250-258). -/
structure LBEntry where
  username : String
  code : String
  language : String
  score : Int
  runtime : ℚ
  memory : ℕ
  timestamp : String
deriving DecidableEq

/-- The `new_entry` dictionary of `update_leaderboard`
(`main.py` lines 250-258); the timestamp `datetime.utcnow().isoformat()`
is an environment input. -/
def mkEntry (username code language : String) (score : Int) (runtime : ℚ)
    (memory : ℕ) (timestamp : String) : LBEntry :=
  { username := username, code := code, language := language, score := score,
    runtime := runtime, memory := memory, timestamp := timestamp }

/-- The sort order of `sorted(leaderboard, key=lambda x: x["score"], reverse=True)`:
non-increasing score. -/
def lbGe (x y : LBEntry) : Prop := y.score ≤ x.score

instance : DecidableRel lbGe := fun x y => inferInstanceAs (Decidable (y.score ≤ x.score))

instance : IsTotal LBEntry lbGe := ⟨fun a b => le_total b.score a.score⟩

instance : IsTrans LBEntry lbGe := ⟨fun _ _ _ h1 h2 => le_trans h2 h1⟩

/-- `update_leaderboard` (`main.py` lines 246-264) acting on the loaded
leaderboard list: append the new entry, sort by score in descending
order, keep the first three, save.  Python's `sorted` is stable; a
stable sort is modelled by `List.insertionSort` under `lbGe`, whose
tie-breaking by original position matches Timsort's. -/
def update_leaderboard (leaderboard : List LBEntry) (username code language : String)
    (score : Int) (runtime : ℚ) (memory : ℕ) (timestamp : String) : List LBEntry :=
  (List.insertionSort lbGe
    (leaderboard ++ [mkEntry username code language score runtime memory timestamp])).take 3

/-! ### Readability evaluators (`main.py` lines 286-318)

Python string helpers are modelled for ASCII text: `str.strip()` and the
per-line `strip()` become `String.trim`, `str.lower()` becomes
`String.toLower`, and `str.splitlines()` splits on `\n`, `\r\n` and `\r`
(the rarer Unicode line boundaries Python also recognises do not occur
in the snippets considered). -/

/-- `str.splitlines()` for ASCII text: maximal segments between line
boundaries, with no trailing empty segment for a trailing newline
(`"a\n".splitlines() == ["a"]`, `"".splitlines() == []`). -/
def splitlinesAux : List Char → List Char → List (List Char)
| [], acc => if acc.isEmpty then [] else [acc.reverse]
| '\r' :: '\n' :: rest, acc => acc.reverse :: splitlinesAux rest []
| '\n' :: rest, acc => acc.reverse :: splitlinesAux rest []
| '\r' :: rest, acc => acc.reverse :: splitlinesAux rest []
| c :: rest, acc => splitlinesAux rest (c :: acc)

/-- `code.splitlines()` as a list of line strings. -/
def pySplitlines (s : String) : List String :=
  (splitlinesAux s.toList []).map fun cs => String.mk cs

/-- Substring containment, Python's `sub in line` for a non-empty
needle: `splitOn` yields more than one piece exactly when the needle
occurs. -/
def strContains (s sub : String) : Bool := (s.splitOn sub).length > 1

/-- `evaluate_comments` (`main.py` lines 287-293).  The Python division
`comment_lines / total_lines` is over floats; it is modelled exactly
over ℚ, and `int(...)` truncates (here: floors, the value being
non-negative). -/
def evaluate_comments (code : String) : Int :=
  let lines := pySplitlines code
  let commentLines := (lines.filter fun line =>
    ((pyStrip line).startsWith "#") || strContains line "//").length
  let totalLines := lines.length
  if totalLines = 0 then 0
  else Rat.floor (min 100 (((commentLines : ℚ) / (totalLines : ℚ)) * 200))

/-- `evaluate_formatting` (`main.py` lines 295-300). -/
def evaluate_formatting (code : String) : Int :=
  let lines := pySplitlines code
  let longLines := (lines.filter fun line => line.length > 80).length
  let improperIndent := (lines.filter fun line =>
    (line.startsWith " ") && line.length % 4 ≠ 0).length
  max 0 (100 - ((longLines : Int) * 2 + (improperIndent : Int) * 3))

/-- A word character of the regex classes `[a-zA-Z0-9_]` (ASCII). -/
def isWordChar (c : Char) : Bool := c.isAlpha || c.isDigit || c = '_'

/-- Maximal runs of word characters in a character list. -/
def wordRunsAux : List Char → List Char → List (List Char)
| [], acc => if acc.isEmpty then [] else [acc.reverse]
| c :: rest, acc =>
    if isWordChar c then wordRunsAux rest (c :: acc)
    else if acc.isEmpty then wordRunsAux rest []
    else acc.reverse :: wordRunsAux rest []

/-- `re.findall(r"\b[a-zA-Z_][a-zA-Z0-9_]*\b", code)` for ASCII text: the
maximal word-character runs that do not start with a digit (a run
starting with a digit contains no match site, since no word boundary
occurs inside a run). -/
def findIdentifiers (code : String) : List String :=
  (wordRunsAux code.toList []).filterMap fun cs =>
    match cs with
    | [] => none
    | c :: _ => if c.isAlpha || c = '_' then some (String.mk cs) else none

/-- Python `str.isupper()`: at least one cased character and every cased
character uppercase (the cased characters of an ASCII identifier being
its letters). -/
def pyIsUpper (s : String) : Bool :=
  (s.toList.any fun c => c.isAlpha) && (s.toList.all fun c => !c.isAlpha || c.isUpper)

/-- `evaluate_naming_conventions` (`main.py` lines 302-306). -/
def evaluate_naming_conventions (code : String) : Int :=
  let vars := findIdentifiers code
  let badNames := (vars.filter fun name =>
    name.length < 3 || pyIsUpper name || !(name.toList.contains '_')).length
  max 0 (100 - (badNames : Int) * 2)

/-- Number of occurrences of the character with code `n` in a line. -/
def countCharCode (line : String) (n : ℕ) : ℕ :=
  (line.toList.filter fun c => c.toNat = n).length

/-- `evaluate_complexity` (`main.py` lines 308-310): the maximum over
lines of `line.count(open brace) - line.count(close brace)`, with
`default=0` used only when there are no lines (Python's
`max(list, default=0)` returns the genuine maximum, possibly negative,
for a non-empty list). -/
def evaluate_complexity (code : String) : Int :=
  let levels := (pySplitlines code).map fun line =>
    (countCharCode line 123 : Int) - (countCharCode line 125 : Int)
  let nesting : Int :=
    match levels with
    | [] => 0
    | x :: xs => xs.foldl max x
  max 0 (100 - nesting * 10)

/-- The four readability scores, in the insertion order of the Python
`results` dictionary. -/
structure Breakdown where
  comments_score : Int
  formatting_score : Int
  naming_score : Int
  complexity_score : Int
deriving DecidableEq

/-- `generate_suggestions` (`main.py` lines 312-318). -/
def generate_suggestions (results : Breakdown) : List String :=
  (if results.comments_score < 50 then
    ["Add more meaningful comments to explain your code."] else []) ++
  (if results.formatting_score < 70 then
    ["Fix inconsistent formatting, long lines, or incorrect indentation."] else [])

/-! ### The `/analyze` endpoint (`main.py` lines 180-217) -/

/-- Response of `analyze_code`: the `HTTPException` raised by the empty
check, the `{"error": ...}` body forwarded from `execute_code_safely`,
or the full success body (the numeric fields are carried as values; the
endpoint formats `runtime` and `memory` into strings for JSON). -/
inductive AnalyzeResponse
| httpError (statusCode : ℕ) (detail : String)
| errorBody (message : String)
| ok (username : String) (readabilityScore : Int) (breakdown : Breakdown)
     (suggestions : List String) (runtime : ℚ) (memory : ℕ) (output : String)
deriving DecidableEq

/-- `analyze_code(snippet)` (`main.py` lines 180-217), with the
persisted leaderboard passed in and returned explicitly.  Returns the
response, the leaderboard after the call, and the number of
`subprocess.run` invocations the call issued. -/
def analyze_code (env : ExecEnv) (leaderboard : List LBEntry) (timestamp : String)
    (username code language : String) : AnalyzeResponse × List LBEntry × ℕ :=
  let code' := pyStrip code
  let language' := language.toLower
  let username' := pyStrip username
  if code' = "" ∨ username' = "" then
    (AnalyzeResponse.httpError 400 "Code snippet and username cannot be empty.",
     leaderboard, 0)
  else
    let t := execute_code_safely env code' language'
    match t.outcome with
    | Outcome.error m => (AnalyzeResponse.errorBody m, leaderboard, t.spawns.length)
    | Outcome.success rt mem out =>
        let results : Breakdown :=
          { comments_score := evaluate_comments code',
            formatting_score := evaluate_formatting code',
            naming_score := evaluate_naming_conventions code',
            complexity_score := evaluate_complexity code' }
        let total := Int.fdiv (results.comments_score + results.formatting_score +
          results.naming_score + results.complexity_score) 4
        let lb' := update_leaderboard leaderboard username' code' language' total rt mem timestamp
        (AnalyzeResponse.ok username' total results (generate_suggestions results) rt mem out,
         lb', t.spawns.length)

/-! ### Helper lemmas -/

/-- The registry keys are exactly the four language identifiers. -/
theorem lang_cases_of_lookup (s language : String)
    (h : (LANGUAGE_COMMANDS s).lookup language ≠ none) :
    language = "python" ∨ language = "javascript" ∨ language = "java" ∨ language = "cpp" := by
  by_cases h1 : language = "python"
  · exact Or.inl h1
  by_cases h2 : language = "javascript"
  · exact Or.inr (Or.inl h2)
  by_cases h3 : language = "java"
  · exact Or.inr (Or.inr (Or.inl h3))
  by_cases h4 : language = "cpp"
  · exact Or.inr (Or.inr (Or.inr h4))
  have b1 : (language == "python") = false := beq_eq_false_iff_ne.mpr h1
  have b2 : (language == "javascript") = false := beq_eq_false_iff_ne.mpr h2
  have b3 : (language == "java") = false := beq_eq_false_iff_ne.mpr h3
  have b4 : (language == "cpp") = false := beq_eq_false_iff_ne.mpr h4
  exact absurd (by simp [LANGUAGE_COMMANDS, List.lookup, b1, b2, b3, b4]) h

/-- On a registered language the guard falls through to the `try:` body. -/
theorem execute_registered (env : ExecEnv) (code language : String)
    (h : (LANGUAGE_COMMANDS env.sysExecutable).lookup language ≠ none) :
    execute_code_safely env code language = spawnAndClassify env code language := by
  simp [execute_code_safely, h]

/-- Every registered language reaches one of the four `subprocess.run`
branches. -/
theorem spawnSpecFor_isSome_of_registered (p : Platform) (code s language : String)
    (h : (LANGUAGE_COMMANDS s).lookup language ≠ none) :
    ∃ sp, spawnSpecFor p language code = some sp := by
  rcases lang_cases_of_lookup s language h with h' | h' | h' | h' <;> subst h' <;>
    exact ⟨_, rfl⟩

/-! ### Claims -/

/-- C1 (counterexample): on Linux — a platform with POSIX resource
limits — the registered language `java` is spawned with no pre-exec
step at all (`preexec` is `none`, not `limit_resources`), and likewise
`cpp`; moreover macOS (Darwin) also supports POSIX resource limits, yet
even the `python` subprocess is spawned there with `preexec_fn=None`.
The claim that every registered language's subprocess on a
POSIX-rlimit platform is created with `limit_resources` installed is
false. -/
theorem C1_java_unlimited_counterexample :
    supportsPosixRlimits Platform.linux = true ∧
    ((LANGUAGE_COMMANDS "/usr/bin/python3").lookup "java").isSome = true ∧
    (spawnSpecFor Platform.linux "java" "class Main").map SpawnSpec.preexec = some none ∧
    (spawnSpecFor Platform.linux "cpp" "int main()").map SpawnSpec.preexec = some none ∧
    supportsPosixRlimits Platform.darwin = true ∧
    (spawnSpecFor Platform.darwin "python" "print(1)").map SpawnSpec.preexec = some none ∧
    some (none : Option (List (RLimit × ℕ × ℕ))) ≠ some (some limit_resources) :=
  ⟨by decide, by decide, by decide, by decide, by decide, by decide, by decide⟩

/-- C1 (amended): `limit_resources` is installed as the pre-exec step
only for the `python` and `javascript` subprocesses, and only on
platforms other than macOS and Windows — on macOS and Windows those two
are spawned with no pre-exec step either; the `java` and `cpp`
subprocesses are spawned without any pre-exec step on every platform. -/
theorem C1_limiter_only_python_js (p : Platform) (code : String) :
    ((p ≠ Platform.darwin ∧ p ≠ Platform.windows) →
      (spawnSpecFor p "python" code).map SpawnSpec.preexec = some (some limit_resources) ∧
      (spawnSpecFor p "javascript" code).map SpawnSpec.preexec =
        some (some limit_resources)) ∧
    ((p = Platform.darwin ∨ p = Platform.windows) →
      (spawnSpecFor p "python" code).map SpawnSpec.preexec = some none ∧
      (spawnSpecFor p "javascript" code).map SpawnSpec.preexec = some none) ∧
    (spawnSpecFor p "java" code).map SpawnSpec.preexec = some none ∧
    (spawnSpecFor p "cpp" code).map SpawnSpec.preexec = some none := by
  refine ⟨?_, ?_, rfl, rfl⟩
  · rintro ⟨h1, h2⟩
    have hno : ¬(p = Platform.darwin ∨ p = Platform.windows) := by
      rintro (h | h)
      · exact h1 h
      · exact h2 h
    constructor <;> simp [spawnSpecFor, hno]
  · intro hyes
    constructor <;> simp [spawnSpecFor, hyes]

/-- Witness for C1 (amended): the limiter is installed for python on
Linux and absent for python on macOS. -/
theorem C1_limiter_only_python_js_witness :
    (spawnSpecFor Platform.linux "python" "print(1)").map SpawnSpec.preexec =
      some (some limit_resources) ∧
    (spawnSpecFor Platform.darwin "python" "print(1)").map SpawnSpec.preexec = some none :=
  ⟨((C1_limiter_only_python_js Platform.linux "print(1)").1 (by decide)).1,
   ((C1_limiter_only_python_js Platform.darwin "print(1)").2.1 (by decide)).1⟩

/-- C2: for a registered language the outcome classification is: missing
binary (`FileNotFoundError`) → the not-found error; wall-clock deadline
exceeded (`TimeoutExpired`) → the timeout error; non-zero exit code →
runtime error carrying the child's trimmed stderr; otherwise success
carrying trimmed stdout, the elapsed time rounded to four decimal
places, and the peak traced memory in KiB truncated to an integer. -/
theorem C2_classification (env : ExecEnv) (code language : String)
    (hreg : (LANGUAGE_COMMANDS env.sysExecutable).lookup language ≠ none) :
    (env.run = RunResult.fileNotFound →
      (execute_code_safely env code language).outcome =
        Outcome.error "Execution file not found. Ensure compilation was successful.") ∧
    (env.run = RunResult.timeoutExpired →
      (execute_code_safely env code language).outcome =
        Outcome.error "Code execution timed out (infinite loop or too slow).") ∧
    (∀ rc out err, env.run = RunResult.completed rc out err → rc ≠ 0 →
      (execute_code_safely env code language).outcome =
        Outcome.error ("Runtime Error:\n" ++ pyStrip err)) ∧
    (∀ out err, env.run = RunResult.completed 0 out err →
      (execute_code_safely env code language).outcome =
        Outcome.success (round4 env.elapsed) (env.peakBytes / 1024) (pyStrip out)) := by
  rw [execute_registered env code language hreg]
  obtain ⟨sp, hsp⟩ :=
    spawnSpecFor_isSome_of_registered env.platform code env.sysExecutable language hreg
  refine ⟨?_, ?_, ?_, ?_⟩
  · intro hr
    simp [spawnAndClassify, hsp, hr]
  · intro hr
    simp [spawnAndClassify, hsp, hr]
  · intro rc out err hr hrc
    simp [spawnAndClassify, hsp, hr, hrc]
  · intro out err hr
    simp [spawnAndClassify, hsp, hr]

/-- Witness for C2 at a concrete successful python run. -/
theorem C2_classification_witness :
    (execute_code_safely
      { platform := Platform.linux, sysExecutable := "/usr/bin/python3",
        run := RunResult.completed 0 "4\n" "", elapsed := 3 / 1000, peakBytes := 2048 }
      "print(2+2)" "python").outcome =
      Outcome.success (round4 (3 / 1000)) (2048 / 1024) (pyStrip "4\n") :=
  (C2_classification
    { platform := Platform.linux, sysExecutable := "/usr/bin/python3",
      run := RunResult.completed 0 "4\n" "", elapsed := 3 / 1000, peakBytes := 2048 }
    "print(2+2)" "python" (by decide)).2.2.2 "4\n" "" rfl

/-- C3: an unregistered language identifier yields the
unsupported-language error immediately, with zero subprocesses spawned
(and the tracer never started). -/
theorem C3_unsupported_language (env : ExecEnv) (code language : String)
    (h : (LANGUAGE_COMMANDS env.sysExecutable).lookup language = none) :
    execute_code_safely env code language =
      { outcome := Outcome.error "Unsupported language", spawns := [],
        tracingAfter := false } := by
  simp [execute_code_safely, h]

/-- Witness for C3 at the unregistered language `ruby`. -/
theorem C3_unsupported_language_witness :
    execute_code_safely
      { platform := Platform.linux, sysExecutable := "/usr/bin/python3",
        run := RunResult.completed 0 "" "", elapsed := 0, peakBytes := 0 }
      "puts 1" "ruby" =
      { outcome := Outcome.error "Unsupported language", spawns := [],
        tracingAfter := false } :=
  C3_unsupported_language
    { platform := Platform.linux, sysExecutable := "/usr/bin/python3",
      run := RunResult.completed 0 "" "", elapsed := 0, peakBytes := 0 }
    "puts 1" "ruby" (by decide)

/-- C4: every call returns exactly one structured outcome — an error
dictionary or a success dictionary — for every environment behaviour,
including timeout, missing binary and arbitrary other exceptions; no
fault propagates. -/
theorem C4_single_outcome (env : ExecEnv) (code language : String) :
    (∃ m, (execute_code_safely env code language).outcome = Outcome.error m) ∨
    (∃ rt mem out,
      (execute_code_safely env code language).outcome = Outcome.success rt mem out) := by
  cases h : (execute_code_safely env code language).outcome with
  | error m => exact Or.inl ⟨m, rfl⟩
  | success rt mem out => exact Or.inr ⟨rt, mem, out, rfl⟩

/-- C5 (code bug): on the timeout path the `tracemalloc` tracer started
at the beginning of the call is left running when the call returns,
while on the normal completion path it is stopped — the stop is skipped
by every exception path. -/
theorem C5_tracer_left_running_on_timeout :
    (execute_code_safely
      { platform := Platform.linux, sysExecutable := "/usr/bin/python3",
        run := RunResult.timeoutExpired, elapsed := 0, peakBytes := 0 }
      "while True: pass" "python").tracingAfter = true ∧
    (execute_code_safely
      { platform := Platform.linux, sysExecutable := "/usr/bin/python3",
        run := RunResult.fileNotFound, elapsed := 0, peakBytes := 0 }
      "x" "cpp").tracingAfter = true ∧
    (execute_code_safely
      { platform := Platform.linux, sysExecutable := "/usr/bin/python3",
        run := RunResult.completed 0 "4" "", elapsed := 0, peakBytes := 0 }
      "print(2+2)" "python").tracingAfter = false := by
  decide

/-- C6 (counterexample): an exception outside the specific handlers has
its raw text forwarded verbatim inside the returned error message, host
path included; the claim that the raw internal exception text is never
included is false. -/
theorem C6_raw_exception_forwarded_counterexample :
    (execute_code_safely
      { platform := Platform.linux, sysExecutable := "/usr/bin/python3",
        run := RunResult.otherExc "Errno 13 Permission denied: /home/host/.ssh/id_rsa",
        elapsed := 0, peakBytes := 0 }
      "print(1)" "python").outcome =
      Outcome.error
        ("Unexpected error: " ++ "Errno 13 Permission denied: /home/host/.ssh/id_rsa") := by
  decide

/-- C6 (amended): for every exception not covered by the specific
handlers, the returned message is exactly the raw internal exception
text prefixed by the fixed string, i.e. the raw text is forwarded
verbatim to the caller. -/
theorem C6_internal_error_prefixed (env : ExecEnv) (code language emsg : String)
    (hreg : (LANGUAGE_COMMANDS env.sysExecutable).lookup language ≠ none)
    (hrun : env.run = RunResult.otherExc emsg) :
    (execute_code_safely env code language).outcome =
      Outcome.error ("Unexpected error: " ++ emsg) := by
  rw [execute_registered env code language hreg]
  obtain ⟨sp, hsp⟩ :=
    spawnSpecFor_isSome_of_registered env.platform code env.sysExecutable language hreg
  simp [spawnAndClassify, hsp, hrun]

/-- Witness for C6 (amended) at a concrete exception text. -/
theorem C6_internal_error_prefixed_witness :
    (execute_code_safely
      { platform := Platform.linux, sysExecutable := "/usr/bin/python3",
        run := RunResult.otherExc "boom", elapsed := 0, peakBytes := 0 }
      "print(1)" "python").outcome = Outcome.error ("Unexpected error: " ++ "boom") :=
  C6_internal_error_prefixed
    { platform := Platform.linux, sysExecutable := "/usr/bin/python3",
      run := RunResult.otherExc "boom", elapsed := 0, peakBytes := 0 }
    "print(1)" "python" "boom" (by decide) rfl

/-- C7 (counterexample): the registry records `[sys.executable, "-c"]`
as python's launch command, but the subprocess is spawned with the
hard-coded `["python3", "-c", snippet]`; with
`sys.executable = "/usr/bin/python3"` the spawned command is not the
registry command with the snippet appended. -/
theorem C7_python_command_counterexample :
    (LANGUAGE_COMMANDS "/usr/bin/python3").lookup "python" = some ["/usr/bin/python3", "-c"] ∧
    (spawnSpecFor Platform.linux "python" "print(2+2)").map SpawnSpec.argv =
      some ["python3", "-c", "print(2+2)"] ∧
    (["python3", "-c", "print(2+2)"] : List String) ≠
      ["/usr/bin/python3", "-c"] ++ ["print(2+2)"] := by
  decide

/-- C7 (amended): the `javascript` subprocess is spawned with exactly
the registry command with the snippet appended, and `java` and `cpp`
with exactly the registry command; the `python` subprocess uses the
hard-coded `["python3", "-c", snippet]`, while the registry records
`[sys.executable, "-c"]`, so the two coincide only when
`sys.executable` is `"python3"`. -/
theorem C7_spawn_commands (p : Platform) (code sysExe : String) :
    (spawnSpecFor p "javascript" code).map SpawnSpec.argv =
      ((LANGUAGE_COMMANDS sysExe).lookup "javascript").map (fun cmd => cmd ++ [code]) ∧
    (spawnSpecFor p "java" code).map SpawnSpec.argv =
      (LANGUAGE_COMMANDS sysExe).lookup "java" ∧
    (spawnSpecFor p "cpp" code).map SpawnSpec.argv =
      (LANGUAGE_COMMANDS sysExe).lookup "cpp" ∧
    (spawnSpecFor p "python" code).map SpawnSpec.argv = some (["python3", "-c"] ++ [code]) ∧
    (LANGUAGE_COMMANDS sysExe).lookup "python" = some [sysExe, "-c"] :=
  ⟨rfl, rfl, rfl, rfl, rfl⟩

/-- C8: `limit_resources` issues exactly two `setrlimit` calls: the
CPU-time ceiling with soft and hard limits both 2 seconds, and the
address-space ceiling with soft and hard limits both 512 MiB. -/
theorem C8_resource_limits :
    limit_resources.lookup RLimit.cpu = some (2, 2) ∧
    limit_resources.lookup RLimit.addressSpace =
      some (512 * 1024 * 1024, 512 * 1024 * 1024) ∧
    limit_resources.length = 2 := by
  decide

/-- In a list sorted by non-increasing score, if an element occurs among
the first three entries then fewer than three elements of the whole list
score strictly higher than it. -/
theorem countP_lt_three_of_mem_take (S : List LBEntry) (e : LBEntry)
    (hS : List.Sorted lbGe S) (he : e ∈ S.take 3) :
    S.countP (fun x => decide (e.score < x.score)) < 3 := by
  have hsplit : S.take 3 ++ S.drop 3 = S := List.take_append_drop 3 S
  have hpw : List.Pairwise lbGe (S.take 3 ++ S.drop 3) := by
    rw [hsplit]
    exact hS
  obtain ⟨-, -, hcross⟩ := List.pairwise_append.mp hpw
  have hdrop : (S.drop 3).countP (fun x => decide (e.score < x.score)) = 0 := by
    refine List.countP_eq_zero.mpr ?_
    intro a ha
    simp only [decide_eq_true_eq]
    exact not_lt.mpr (hcross e he a ha)
  have hle : (S.take 3).countP (fun x => decide (e.score < x.score)) ≤ (S.take 3).length :=
    List.countP_le_length _
  have hne : (S.take 3).countP (fun x => decide (e.score < x.score)) ≠ (S.take 3).length := by
    intro hcontr
    have hall := List.countP_eq_length.mp hcontr e he
    simp only [decide_eq_true_eq] at hall
    exact lt_irrefl _ hall
  have hlen3 : (S.take 3).length ≤ 3 := List.length_take_le 3 S
  have heq : S.countP (fun x => decide (e.score < x.score)) =
      (S.take 3).countP (fun x => decide (e.score < x.score)) +
      (S.drop 3).countP (fun x => decide (e.score < x.score)) := by
    rw [← List.countP_append, hsplit]
  omega

/-- C9: after every `update_leaderboard` call the persisted leaderboard
has at most three entries and is sorted in non-increasing score order,
and the new entry is retained only if its score places it among the top
three — i.e. only if fewer than three previously stored entries score
strictly higher. -/
theorem C9_leaderboard_top3 (lb : List LBEntry) (u c l : String) (s : Int)
    (rt : ℚ) (mem : ℕ) (ts : String) :
    (update_leaderboard lb u c l s rt mem ts).length ≤ 3 ∧
    List.Sorted lbGe (update_leaderboard lb u c l s rt mem ts) ∧
    (mkEntry u c l s rt mem ts ∈ update_leaderboard lb u c l s rt mem ts →
      lb.countP (fun x => decide (s < x.score)) < 3) := by
  refine ⟨List.length_take_le 3 _, ?_, ?_⟩
  · exact List.Pairwise.sublist (List.take_sublist 3 _) (List.sorted_insertionSort lbGe _)
  · intro hmem
    have hS : List.Sorted lbGe
        (List.insertionSort lbGe (lb ++ [mkEntry u c l s rt mem ts])) :=
      List.sorted_insertionSort lbGe _
    have hcount := countP_lt_three_of_mem_take _ _ hS hmem
    have hperm := (List.perm_insertionSort lbGe
      (lb ++ [mkEntry u c l s rt mem ts])).countP_eq (fun x => decide (s < x.score))
    simp only [mkEntry] at hcount hperm
    rw [hperm, List.countP_append] at hcount
    omega

/-- Witness for C9 at a concrete update. -/
theorem C9_leaderboard_top3_witness :
    (update_leaderboard [] "alice" "print(1)" "python" 80 (1 / 100) 12 "t0").length ≤ 3 :=
  (C9_leaderboard_top3 [] "alice" "print(1)" "python" 80 (1 / 100) 12 "t0").1

/-- C10: a request to the analyze endpoint whose code or username is
empty after trimming fails with HTTP status 400, executes no code
(zero subprocess invocations), and leaves the leaderboard unchanged. -/
theorem C10_blank_rejected (env : ExecEnv) (lb : List LBEntry) (ts u c l : String)
    (h : pyStrip c = "" ∨ pyStrip u = "") :
    analyze_code env lb ts u c l =
      (AnalyzeResponse.httpError 400 "Code snippet and username cannot be empty.",
       lb, 0) := by
  simp only [analyze_code]
  rw [if_pos h]

/-- Witness for C10 at whitespace-only code. -/
theorem C10_blank_rejected_witness :
    analyze_code
      { platform := Platform.linux, sysExecutable := "/usr/bin/python3",
        run := RunResult.completed 0 "" "", elapsed := 0, peakBytes := 0 }
      [] "t0" "alice" "   " "python" =
      (AnalyzeResponse.httpError 400 "Code snippet and username cannot be empty.",
       [], 0) :=
  C10_blank_rejected
    { platform := Platform.linux, sysExecutable := "/usr/bin/python3",
      run := RunResult.completed 0 "" "", elapsed := 0, peakBytes := 0 }
    [] "t0" "alice" "   " "python" (Or.inl (by decide))

end CodeReview
